import Mathlib

/-!
Verification development for the vibe-cherry application generator.

The repository is a Next.js service that turns a free-text app idea plus a
theme/layout selection into a generated single-page application bundle.  The
core pipeline (classification, prompt building, bounded model call, response
parsing, deterministic fallback synthesis, bundle assembly, thumbnail and
gallery storage helpers) is embedded below as executable Lean definitions,
translated from the TypeScript sources:

  src/pages/api/generate-app.ts   (generation endpoint, fast fallback)
  src/components/VibeAppMaker.tsx (detectAppType classifier)
  src/lib/app-generator.ts        (project bundle assembler)
  src/pages/api/save-app.ts       (thumbnail generator)
  src/lib/storage.ts              (gallery storage helpers)

JavaScript strings are modelled as Lean `String`, JavaScript objects and
JSON.parse results as the `Json` inductive below, exceptions as
`Except String`, and external effects (the model call, the blob store) as
explicit outcome parameters.
-/

/-! ### JavaScript string primitives -/

/-- Whitespace characters relevant to the JavaScript string operations in
this code base (space, tab, LF, CR).  `String.prototype.trim` also strips
some rarer Unicode whitespace, which never occurs here. -/
def jsWs (c : Char) : Bool := c == ' ' || c == '\t' || c == '\n' || c == '\r'

/-- Drops leading whitespace characters from a character list. -/
def dropWsLeft : List Char → List Char
  | [] => []
  | c :: cs => if jsWs c then dropWsLeft cs else c :: cs

/-- Models `s.trim()`. -/
def jsTrim (s : String) : String :=
  ⟨dropWsLeft ((dropWsLeft s.data.reverse).reverse)⟩

/-- Boolean prefix test on character lists. -/
def hasPrefixCL : List Char → List Char → Bool
  | [], _ => true
  | _ :: _, [] => false
  | p :: ps, c :: cs => p == c && hasPrefixCL ps cs

/-- Boolean substring-occurrence test on character lists. -/
def occursL (kw : List Char) : List Char → Bool
  | [] => hasPrefixCL kw []
  | c :: t => hasPrefixCL kw (c :: t) || occursL kw t

/-- Models `s.includes(kw)` (also used for checking generated text). -/
def containsSub (s kw : String) : Bool := occursL kw.data s.data

/-- Models a global regex replace of the literal pattern `pat` followed by an
optional newline, with the empty string: the scan is left to right and
restarts after each removed match, exactly like `/pat\n?/g`.  The fuel is an
upper bound on the number of steps (one per consumed character suffices). -/
def stripPatNl (pat : List Char) : Nat → List Char → List Char
  | 0, _ => []
  | _, [] => []
  | fuel + 1, c :: cs =>
    if hasPrefixCL pat (c :: cs) then
      let rest := (c :: cs).drop pat.length
      let rest2 := match rest with
        | '\n' :: r => r
        | r => r
      stripPatNl pat fuel rest2
    else c :: stripPatNl pat fuel cs

/-- Models the response-cleaning step of the generation endpoint
(src/pages/api/generate-app.ts lines 63-66):
`text.replace(/```json\n?/g, '').replace(/```\n?/g, '').trim()`. -/
def cleanModelText (s : String) : String :=
  let a := stripPatNl ("```json".data) (s.data.length + 1) s.data
  let b := stripPatNl ("```".data) (a.length + 1) a
  jsTrim ⟨b⟩

/-- Models `s.toLowerCase()` character-wise (ASCII case mapping), in a
form that the kernel can evaluate. -/
def jsToLower (s : String) : String := ⟨s.data.map Char.toLower⟩

/-- ASCII alphanumeric test, the character class `[a-zA-Z0-9]` of the slug
regexes in the sources. -/
def jsAlnum (c : Char) : Bool :=
  (65 ≤ c.toNat && c.toNat ≤ 90) || (97 ≤ c.toNat && c.toNat ≤ 122)
    || (48 ≤ c.toNat && c.toNat ≤ 57)

/-- Single-character step of `title.toLowerCase().replace(/[^a-zA-Z0-9]/g, '-')`:
both stages are character-wise, so their composition is one map.
`Char.toLower` matches the ASCII behaviour of `toLowerCase`; non-ASCII
characters are not lowercased here but are replaced by the separator in both
models, with the exception of exotic case mappings that never occur in app
titles in this repository. -/
def slugChar (c : Char) : Char :=
  let c2 := c.toLower
  if jsAlnum c2 then c2 else '-'

/-- Models the slug used for manifest project names in
src/lib/app-generator.ts line 41 and src/pages/api/generate-app.ts line 77:
`title.toLowerCase().replace(/[^a-zA-Z0-9]/g, '-')`. -/
def slugify (s : String) : String := ⟨s.data.map slugChar⟩

/-- Helper for `specSlug`: the Boolean records whether the previous emitted
position lies inside a non-alphanumeric run already represented by a
separator. -/
def specSlugGo : Bool → List Char → List Char
  | _, [] => []
  | prevSep, c :: cs =>
    let c2 := c.toLower
    if jsAlnum c2 then c2 :: specSlugGo false cs
    else if prevSep then specSlugGo true cs
    else '-' :: specSlugGo true cs

/-- Modelled from the spec: the project name is "derived from title by
lowercasing and replacing all non-alphanumeric runs with a single
separator"; each maximal run of non-alphanumeric characters becomes one
separator character. -/
def specSlug (s : String) : String := ⟨specSlugGo false s.data⟩

/-! ### JSON values, parsing and serialisation -/

/-- JSON values as produced by `JSON.parse`.  Numbers keep their source
lexeme, which is enough for every use in this repository (no generated file
or claim inspects a parsed numeric value). -/
inductive Json where
  | null
  | bool (b : Bool)
  | num (lex : String)
  | str (s : String)
  | arr (elems : List Json)
  | obj (fields : List (String × Json))

/-- Value of a hexadecimal digit. -/
def hexVal (c : Char) : Option Nat :=
  if 48 ≤ c.toNat && c.toNat ≤ 57 then some (c.toNat - 48)
  else if 97 ≤ c.toNat && c.toNat ≤ 102 then some (c.toNat - 87)
  else if 65 ≤ c.toNat && c.toNat ≤ 70 then some (c.toNat - 55)
  else none

/-- Parses the remainder of a JSON string literal (the opening quote already
consumed), returning the decoded characters and the rest of the input.
Escape sequences follow the JSON grammar; `\uXXXX` surrogate pairs are
combined into one code point.  A lone surrogate is rejected here (JavaScript
would keep it as a malformed string); no input in this development contains
one. -/
def parseStrRest : List Char → Option (List Char × List Char)
  | [] => none
  | '"' :: rest => some ([], rest)
  | '\\' :: esc =>
    match esc with
    | '"' :: r => (parseStrRest r).map (fun p => ('"' :: p.1, p.2))
    | '\\' :: r => (parseStrRest r).map (fun p => ('\\' :: p.1, p.2))
    | '/' :: r => (parseStrRest r).map (fun p => ('/' :: p.1, p.2))
    | 'b' :: r => (parseStrRest r).map (fun p => (Char.ofNat 8 :: p.1, p.2))
    | 'f' :: r => (parseStrRest r).map (fun p => (Char.ofNat 12 :: p.1, p.2))
    | 'n' :: r => (parseStrRest r).map (fun p => ('\n' :: p.1, p.2))
    | 'r' :: r => (parseStrRest r).map (fun p => ('\r' :: p.1, p.2))
    | 't' :: r => (parseStrRest r).map (fun p => ('\t' :: p.1, p.2))
    | 'u' :: h1 :: h2 :: h3 :: h4 :: r =>
      match hexVal h1, hexVal h2, hexVal h3, hexVal h4 with
      | some a, some b, some c, some d =>
        let v := ((a * 16 + b) * 16 + c) * 16 + d
        if v < 0xd800 || 0xdfff < v then
          (parseStrRest r).map (fun p => (Char.ofNat v :: p.1, p.2))
        else if v ≤ 0xdbff then
          match r with
          | '\\' :: 'u' :: g1 :: g2 :: g3 :: g4 :: r2 =>
            match hexVal g1, hexVal g2, hexVal g3, hexVal g4 with
            | some a2, some b2, some c2, some d2 =>
              let w := ((a2 * 16 + b2) * 16 + c2) * 16 + d2
              if 0xdc00 ≤ w && w ≤ 0xdfff then
                (parseStrRest r2).map
                  (fun p =>
                    (Char.ofNat (0x10000 + (v - 0xd800) * 0x400 + (w - 0xdc00))
                      :: p.1, p.2))
              else none
            | _, _, _, _ => none
          | _ => none
        else none
      | _, _, _, _ => none
    | _ => none
  | c :: rest =>
    if c.toNat < 32 then none
    else (parseStrRest rest).map (fun p => (c :: p.1, p.2))

/-- Splits off a maximal run of decimal digits. -/
def takeDigits : List Char → (List Char × List Char)
  | [] => ([], [])
  | c :: cs =>
    if 48 ≤ c.toNat && c.toNat ≤ 57 then
      let p := takeDigits cs
      (c :: p.1, p.2)
    else ([], c :: cs)

/-- Parses a JSON number, returning its lexeme and the remaining input. -/
def parseNumLex (s : List Char) : Option (List Char × List Char) :=
  let signed : Bool × List Char :=
    match s with
    | '-' :: r => (true, r)
    | r => (false, r)
  let (neg, s1) := signed
  match s1 with
  | [] => none
  | c :: cs =>
    if c == '0' then
      let intPart := ['0']
      let afterInt := cs
      let (frac, s2) :=
        match afterInt with
        | '.' :: r =>
          let p := takeDigits r
          if p.1.isEmpty then ([], '.' :: r) else ('.' :: p.1, p.2)
        | r => ([], r)
      if frac.isEmpty && (match afterInt with | '.' :: _ => true | _ => false) then none
      else
        let (ex, s3) :=
          match s2 with
          | e :: r =>
            if e == 'e' || e == 'E' then
              let signedExp : List Char × List Char :=
                match r with
                | '+' :: r2 => (['+'], r2)
                | '-' :: r2 => (['-'], r2)
                | r2 => ([], r2)
              let p := takeDigits signedExp.2
              if p.1.isEmpty then ([], e :: r)
              else (e :: (signedExp.1 ++ p.1), p.2)
            else ([], e :: r)
          | [] => ([], [])
        if ex.isEmpty && (match s2 with
            | e :: _ => e == 'e' || e == 'E'
            | [] => false) then none
        else some ((if neg then ['-'] else []) ++ intPart ++ frac ++ ex, s3)
    else if 49 ≤ c.toNat && c.toNat ≤ 57 then
      let p := takeDigits (c :: cs)
      let (frac, s2) :=
        match p.2 with
        | '.' :: r =>
          let q := takeDigits r
          if q.1.isEmpty then ([], '.' :: r) else ('.' :: q.1, q.2)
        | r => ([], r)
      if frac.isEmpty && (match p.2 with | '.' :: _ => true | _ => false) then none
      else
        let (ex, s3) :=
          match s2 with
          | e :: r =>
            if e == 'e' || e == 'E' then
              let signedExp : List Char × List Char :=
                match r with
                | '+' :: r2 => (['+'], r2)
                | '-' :: r2 => (['-'], r2)
                | r2 => ([], r2)
              let q := takeDigits signedExp.2
              if q.1.isEmpty then ([], e :: r)
              else (e :: (signedExp.1 ++ q.1), q.2)
            else ([], e :: r)
          | [] => ([], [])
        if ex.isEmpty && (match s2 with
            | e :: _ => e == 'e' || e == 'E'
            | [] => false) then none
        else some ((if neg then ['-'] else []) ++ p.1 ++ frac ++ ex, s3)
    else none

/-- Skips JSON whitespace. -/
def skipJsonWs : List Char → List Char
  | [] => []
  | c :: cs =>
    if c == ' ' || c == '\t' || c == '\n' || c == '\r' then skipJsonWs cs
    else c :: cs

mutual

/-- Recursive-descent JSON value parser with fuel; the fuel only bounds the
nesting-driven recursion and is instantiated generously at the top level. -/
def parseJsonVal : Nat → List Char → Option (Json × List Char)
  | 0, _ => none
  | fuel + 1, s =>
    match skipJsonWs s with
    | 't' :: 'r' :: 'u' :: 'e' :: rest => some (.bool true, rest)
    | 'f' :: 'a' :: 'l' :: 's' :: 'e' :: rest => some (.bool false, rest)
    | 'n' :: 'u' :: 'l' :: 'l' :: rest => some (.null, rest)
    | '"' :: rest => (parseStrRest rest).map (fun p => (.str ⟨p.1⟩, p.2))
    | '[' :: rest =>
      (match skipJsonWs rest with
       | ']' :: r => some (.arr [], r)
       | r => (parseJsonElems fuel r).map (fun p => (.arr p.1, p.2)))
    | '{' :: rest =>
      (match skipJsonWs rest with
       | '}' :: r => some (.obj [], r)
       | r => (parseJsonMembers fuel r).map (fun p => (.obj p.1, p.2)))
    | s2 => (parseNumLex s2).map (fun p => (.num ⟨p.1⟩, p.2))

/-- Parses the comma-separated elements of a non-empty JSON array, up to and
including the closing bracket. -/
def parseJsonElems : Nat → List Char → Option (List Json × List Char)
  | 0, _ => none
  | fuel + 1, s =>
    match parseJsonVal fuel s with
    | none => none
    | some (v, rest) =>
      match skipJsonWs rest with
      | ',' :: r => (parseJsonElems fuel r).map (fun p => (v :: p.1, p.2))
      | ']' :: r => some ([v], r)
      | _ => none

/-- Parses the comma-separated members of a non-empty JSON object, up to and
including the closing brace. -/
def parseJsonMembers : Nat → List Char → Option (List (String × Json) × List Char)
  | 0, _ => none
  | fuel + 1, s =>
    match skipJsonWs s with
    | '"' :: rest =>
      match parseStrRest rest with
      | none => none
      | some (k, rest2) =>
        match skipJsonWs rest2 with
        | ':' :: r =>
          match parseJsonVal fuel r with
          | none => none
          | some (v, rest3) =>
            match skipJsonWs rest3 with
            | ',' :: r2 => (parseJsonMembers fuel r2).map (fun p => ((⟨k⟩, v) :: p.1, p.2))
            | '}' :: r2 => some ([(⟨k⟩, v)], r2)
            | _ => none
        | _ => none
    | _ => none

end

/-- Models `JSON.parse`: the whole input must be one JSON value surrounded
only by whitespace, otherwise the parse fails (throws, in JavaScript). -/
def jsonParse (s : String) : Option Json :=
  match parseJsonVal (2 * s.data.length + 4) s.data with
  | some (j, rest) => if (skipJsonWs rest).isEmpty then some j else none
  | none => none

/-- Field access on a parsed object, `o[k]`: `none` models `undefined`.
With duplicate keys `JSON.parse` keeps the last value, hence the fold. -/
def jsGet (j : Json) (k : String) : Option Json :=
  match j with
  | .obj fs => fs.foldl (fun acc p => if p.1 == k then some p.2 else acc) none
  | _ => none

/-- Chained field access along a path of keys. -/
def jsGetPath (j : Json) : List String → Option Json
  | [] => some j
  | k :: ks =>
    match jsGet j k with
    | some v => jsGetPath v ks
    | none => none

/-- Tests whether all mantissa digits of a JSON number lexeme are zero,
which characterises a zero value (extreme underflowing exponents aside,
which never occur here). -/
def numLexIsZero (lex : String) : Bool :=
  let mantissa := (lex.splitOn "e").headD lex
  let mantissa2 := (mantissa.splitOn "E").headD mantissa
  mantissa2.data.all (fun c => c == '0' || c == '-' || c == '.')

/-- JavaScript truthiness of a value, as used by `||` and `?.` guards. -/
def jsTruthy : Json → Bool
  | .null => false
  | .bool b => b
  | .num lex => !numLexIsZero lex
  | .str s => !s.isEmpty
  | .arr _ => true
  | .obj _ => true

mutual

/-- String conversion of a value in template-literal position, models the
JavaScript abstract `ToString` for the value shapes reachable here. -/
def jsToString : Json → String
  | .null => "null"
  | .bool b => if b then "true" else "false"
  | .num lex => lex
  | .str s => s
  | .arr xs => ⟨List.intercalate (",".data) (jsToStringElems xs)⟩
  | .obj _ => "[object Object]"

/-- Array elements convert with `null` rendered empty, per `Array.prototype.toString`. -/
def jsToStringElems : List Json → List (List Char)
  | [] => []
  | x :: xs =>
    (match x with
     | .null => []
     | v => (jsToString v).data) :: jsToStringElems xs

end

/-- Uppercase hexadecimal digit. -/
def hexDigitU (n : Nat) : Char :=
  if n < 10 then Char.ofNat (48 + n) else Char.ofNat (55 + n)

/-- Escapes one character for a JSON string literal, as `JSON.stringify`
does. -/
def jsonEscChar (c : Char) : List Char :=
  if c == '"' then ['\\', '"']
  else if c == '\\' then ['\\', '\\']
  else if c == '\n' then ['\\', 'n']
  else if c == '\r' then ['\\', 'r']
  else if c == '\t' then ['\\', 't']
  else if c.toNat == 8 then ['\\', 'b']
  else if c.toNat == 12 then ['\\', 'f']
  else if c.toNat < 32 then
    ['\\', 'u', '0', '0', hexDigitU (c.toNat / 16), hexDigitU (c.toNat % 16)]
  else [c]

/-- Serialises a string as a JSON string literal. -/
def jsonQuote (s : String) : String :=
  ⟨'"' :: (s.data.map jsonEscChar).flatten ++ ['"']⟩

/-- Space indentation. -/
def indentSp (n : Nat) : String := ⟨List.replicate n ' '⟩

mutual

/-- Models `JSON.stringify(v, null, 2)` at a given current indentation
level (the level is the indentation of the surrounding context). -/
def stringify2At (level : Nat) : Json → String
  | .null => "null"
  | .bool b => if b then "true" else "false"
  | .num lex => lex
  | .str s => jsonQuote s
  | .arr [] => "[]"
  | .arr (x :: xs) =>
    "[\n" ++
      ⟨List.intercalate (",\n".data) (stringify2Elems (level + 2) (x :: xs))⟩ ++
      "\n" ++ indentSp level ++ "]"
  | .obj [] => "\x7b\x7d"
  | .obj (f :: fs) =>
    "\x7b\n" ++
      ⟨List.intercalate (",\n".data) (stringify2Fields (level + 2) (f :: fs))⟩ ++
      "\n" ++ indentSp level ++ "\x7d"

/-- Serialises array elements at the given indentation. -/
def stringify2Elems (level : Nat) : List Json → List (List Char)
  | [] => []
  | x :: xs =>
    (indentSp level ++ stringify2At level x).data :: stringify2Elems level xs

/-- Serialises object members at the given indentation. -/
def stringify2Fields (level : Nat) : List (String × Json) → List (List Char)
  | [] => []
  | (k, v) :: fs =>
    (indentSp level ++ jsonQuote k ++ ": " ++ stringify2At level v).data
      :: stringify2Fields level fs

end

/-- Models `JSON.stringify(v, null, 2)`. -/
def stringify2 (j : Json) : String := stringify2At 0 j

/-- Characters left unencoded by `encodeURIComponent`. -/
def uriUnreserved (c : Char) : Bool :=
  jsAlnum c || c == '-' || c == '_' || c == '.' || c == '!' || c == '~'
    || c == '*' || c == '\x27' || c == '(' || c == ')'

/-- Percent-encoding of one byte, uppercase hexadecimal as in JavaScript. -/
def pctByte (b : UInt8) : List Char :=
  ['%', hexDigitU (b.toNat / 16), hexDigitU (b.toNat % 16)]

/-- Models `encodeURIComponent` (UTF-8 percent-encoding of everything
outside the unreserved set). -/
def encodeURIComponent (s : String) : String :=
  ⟨(s.data.map (fun c =>
      if uriUnreserved c then [c]
      else ((String.utf8EncodeChar c).map pctByte).flatten)).flatten⟩

/-! ### src/pages/api/generate-app.ts : lookup tables and fast fallback -/

/-- Interpolation of a possibly-undefined JavaScript value into a template
literal or a property-key position: `undefined` prints as, and looks up as
the key, the string "undefined".  (One divergence is recorded here: an
object literal field whose value is `undefined` would be dropped by
`res.json`, while this model stores the string "undefined"; no claim
inspects such a field.) -/
def jsArg (o : Option String) : String := o.getD "undefined"

/-- Template interpolation of an optional lookup result. -/
def jsShowO (o : Option String) : String := o.getD "undefined"

/-- Models `s.slice(0, n)`. -/
def jsSliceTo (s : String) (n : Nat) : String := ⟨s.data.take n⟩

/-- The `gradients` table of `generateFastApp` (lines 152-158). -/
def gradientsMap : String → Option String
  | "minimal" => some "from-gray-100 to-white"
  | "playful" => some "from-pink-100 via-purple-50 to-indigo-100"
  | "professional" => some "from-blue-50 to-indigo-100"
  | "artistic" => some "from-orange-100 to-red-100"
  | "techy" => some "from-emerald-50 to-teal-100"
  | _ => none

/-- The `textColors` table of `generateFastApp` (lines 160-166); the
`getThemeText` table (lines 218-224) is entry-for-entry identical. -/
def textColorsMap : String → Option String
  | "minimal" => some "text-gray-900"
  | "playful" => some "text-purple-900"
  | "professional" => some "text-blue-900"
  | "artistic" => some "text-orange-900"
  | "techy" => some "text-emerald-900"
  | _ => none

/-- The `cols` table (lines 168-173 and 229), as the column count; the
interpolated digit string is `toString` of this count. -/
def colsMap : String → Option Nat
  | "single" => some 1
  | "dual" => some 2
  | "triple" => some 3
  | "quad" => some 4
  | _ => none

/-- The `titles` table of `generateFastFallback` (lines 132-138). -/
def titlesMap : String → Option String
  | "minimal" => some "Clean"
  | "playful" => some "Fun"
  | "professional" => some "Pro"
  | "artistic" => some "Creative"
  | "techy" => some "Tech"
  | _ => none

/-- The button-colour conditional chain inside the feature card template
(line 195). -/
def buttonHue (theme : String) : String :=
  if theme == "minimal" then "gray"
  else if theme == "playful" then "purple"
  else if theme == "professional" then "blue"
  else if theme == "artistic" then "orange"
  else "emerald"

/-- One feature card emitted by the `Array(...).fill(0).map((_, i) => ...)`
template inside `generateFastApp` (lines 191-198). -/
def featureCard (theme : String) (i : Nat) : String :=
  "\n          <div className=\"bg-white/80 backdrop-blur-sm rounded-xl p-6 shadow-lg border border-white/50\">\n            <h3 className=\"font-semibold "
    ++ jsShowO (textColorsMap theme) ++ " mb-2\">Feature " ++ toString (i + 1)
    ++ "</h3>\n            <p className=\"" ++ jsShowO (textColorsMap theme)
    ++ " opacity-70\">Amazing functionality for your app</p>\n            <button className=\"mt-4 bg-"
    ++ buttonHue theme
    ++ "-600 text-white px-4 py-2 rounded-lg hover:opacity-90 transition-all\">\n              Get Started\n            </button>\n          </div>"

/-- Models `generateFastApp(idea, theme, layout)` (lines 151-204).  For a
layout outside the `cols` table, `parseInt(cols[layout])` is `NaN` and
`Array(NaN)` throws a `RangeError: Invalid array length`; otherwise the
function returns the interpolated template. -/
def generateFastApp (idea theme layout : String) : Except String String :=
  match colsMap layout with
  | none => Except.error "Invalid array length"
  | some n => Except.ok (
      "import React from \x27react\x27;\n\nexport default function App() \x7b\n  return (\n    <div className=\"min-h-screen bg-gradient-to-br "
      ++ jsShowO (gradientsMap theme)
      ++ " p-8\">\n      <div className=\"max-w-6xl mx-auto\">\n        <header className=\"text-center mb-12\">\n          <h1 className=\"text-4xl font-bold "
      ++ jsShowO (textColorsMap theme) ++ " mb-4\">\n            "
      ++ jsSliceTo idea 50 ++ (if 50 < idea.data.length then "..." else "")
      ++ "\n          </h1>\n          <p className=\"" ++ jsShowO (textColorsMap theme)
      ++ " opacity-70 text-lg\">\n            Your " ++ theme
      ++ " app is ready to use\n          </p>\n        </header>\n        \n        <div className=\"grid grid-cols-1 md:grid-cols-"
      ++ toString n ++ " gap-6\">\n          "
      ++ String.join ((List.range n).map (fun i => featureCard theme i))
      ++ "\n        </div>\n      </div>\n    </div>\n  );\n\x7d")

/-- Models `idea.split(' ').slice(0, 3).join(' ')` (line 141). -/
def firstThreeWords (idea : String) : String :=
  String.intercalate " " ((idea.splitOn " ").take 3)

/-- Models `generateFastFallback(idea, theme, layout)` (lines 131-148): the
deterministic fallback application description.  The `RangeError` of
`generateFastApp` propagates. -/
def generateFastFallback (idea theme layout : String) : Except String Json := do
  let app ← generateFastApp idea theme layout
  Except.ok (Json.obj [
    ("title", Json.str ((titlesMap theme).getD "Modern" ++ " " ++ firstThreeWords idea ++ " App")),
    ("description", Json.str ("A " ++ theme ++ " app for " ++ idea)),
    ("code", Json.obj [("App.tsx", Json.str app)]),
    ("config", Json.obj [
      ("theme", Json.str theme),
      ("layout", Json.str layout),
      ("features", Json.arr [Json.str "responsive", Json.str "modern"])])])

/-- Models `getThemeGradient` (lines 206-215); note its `playful` entry
differs from the `generateFastApp` table. -/
def getThemeGradient (theme : String) : String :=
  (match theme with
   | "minimal" => some "from-gray-100 to-white"
   | "playful" => some "from-pink-100 to-purple-100"
   | "professional" => some "from-blue-50 to-indigo-100"
   | "artistic" => some "from-orange-100 to-red-100"
   | "techy" => some "from-emerald-50 to-teal-100"
   | _ => none).getD "from-gray-100 to-white"

/-- Models `getThemeText` (lines 217-226). -/
def getThemeText (theme : String) : String :=
  (textColorsMap theme).getD "text-gray-900"

/-- Models `getLayoutCols` (lines 228-231). -/
def getLayoutCols (layout : String) : String :=
  ((colsMap layout).map toString).getD "3"

/-- Models the prompt template `appPrompt` (lines 22-32); template-literal
escape sequences are processed, so the embedded `\n` and `\"` of the source
are real newlines and quotes in the prompt text. -/
def appPrompt (idea theme layout : String) : String :=
  "Create a " ++ theme ++ " " ++ layout ++ "-column React app: \"" ++ idea
  ++ "\".\n\nReturn JSON only:\n\x7b\n  \"title\": \"App Name\",\n  \"description\": \"Brief description\",\n  \"code\": \x7b\n    \"App.tsx\": \"import React from \x27react\x27;\n\nexport default function App() \x7b\n  return (\n    <div className=\"min-h-screen bg-gradient-to-br "
  ++ getThemeGradient theme
  ++ " p-8\">\n      <div className=\"max-w-4xl mx-auto\">\n        <h1 className=\"text-4xl font-bold "
  ++ getThemeText theme ++ " text-center mb-8\">" ++ jsSliceTo idea 50
  ++ "</h1>\n        <div className=\"grid grid-cols-1 md:grid-cols-"
  ++ getLayoutCols layout
  ++ " gap-6\">\n          \x7b/* App content */\x7d\n        </div>\n      </div>\n    </div>\n  );\n\x7d\"\n  \x7d,\n  \"config\": \x7b\"theme\": \"" ++ theme
  ++ "\", \"layout\": \"" ++ layout ++ "\"\x7d\n\x7d"

/-- Models `appData.title?.toLowerCase().replace(/[^a-zA-Z0-9]/g, '-') ||
'vibe-app'` (line 77): absent or null titles fall back via optional
chaining, string titles are slugged (an all-separator empty result cannot
arise, but an empty title string is falsy and also falls back), and any
other value type throws a `TypeError` when `.toLowerCase` is called. -/
def pkgNameOfTitle : Option Json → Except String String
  | none => Except.ok "vibe-app"
  | some Json.null => Except.ok "vibe-app"
  | some (Json.str s) =>
    Except.ok (if (slugify s).isEmpty then "vibe-app" else slugify s)
  | some _ => Except.error "appData.title?.toLowerCase is not a function"

/-- The object stringified into the endpoint bundle manifest
(lines 76-81). -/
def handlerPkgObj (name : String) : Json :=
  Json.obj [
    ("name", Json.str name),
    ("version", Json.str "1.0.0"),
    ("scripts", Json.obj [("dev", Json.str "bun run --hot src/index.tsx")]),
    ("dependencies", Json.obj [
      ("hono", Json.str "^3.12.0"),
      ("react", Json.str "^18.2.0"),
      ("react-dom", Json.str "^18.2.0")])]

/-- Models `appData.code?.['App.tsx'] || generateFastApp(idea, theme,
layout)` (line 82): a truthy value found under `code` is used as-is,
anything falsy (or an absent/`null` `code`) re-runs the fast generator. -/
def appTsxValue (codeField : Option Json) (idea theme layout : String) :
    Except String Json :=
  let v := match codeField with
    | some c => jsGet c "App.tsx"
    | none => none
  match v with
  | some x =>
    if jsTruthy x then Except.ok x
    else (generateFastApp idea theme layout).map Json.str
  | none => (generateFastApp idea theme layout).map Json.str

/-- Models the README template of the success path (line 83). -/
def readmeInterp (j : Json) (idea : String) : String :=
  let t := match jsGet j "title" with
    | some v => if jsTruthy v then jsToString v else "Vibe App"
    | none => "Vibe App"
  let d := match jsGet j "description" with
    | some v => if jsTruthy v then jsToString v else idea
    | none => idea
  "# " ++ t ++ "\n\n" ++ d

/-- Models the `projectFiles` object of the success path (lines 75-84). -/
def successProjectFiles (appData : Json) (idea theme layout : String) :
    Except String (List (String × Json)) := do
  let name ← pkgNameOfTitle (jsGet appData "title")
  let appTsx ← appTsxValue (jsGet appData "code") idea theme layout
  Except.ok [
    ("package.json", Json.str (stringify2 (handlerPkgObj name))),
    ("src/App.tsx", appTsx),
    ("README.md", Json.str (readmeInterp appData idea))]

/-! ### src/pages/api/generate-app.ts : the request handler -/

/-- Inbound request body; `none` models an absent field (the handler
performs no validation of `idea`, `theme`, `layout`). -/
structure ReqBody where
  idea : Option String
  theme : Option String
  layout : Option String

/-- One block of the model response content. -/
inductive ContentBlock where
  | text (s : String)
  | other

/-- Models `response.content.find(block => block.type === 'text')`
(lines 53-55). -/
def findTextBlock : List ContentBlock → Option String
  | [] => none
  | ContentBlock.text s :: _ => some s
  | ContentBlock.other :: bs => findTextBlock bs

/-- Outcome of the raced model call (lines 39-48): the promise either
resolves with response content or rejects with an error message — the
25-second timer rejects with exactly the message "API timeout". -/
inductive ModelOutcome where
  | completion (content : List ContentBlock)
  | rejected (msg : String)

/-- The `app` object of a 200 response (lines 88-97 and 107-120): the
spread `...appData` is kept whole, next to the explicitly set fields. -/
structure ApiAppPayload where
  appData : Json
  files : List (String × Json)
  timestamp : Nat
  id : String
  generationTime : Option Nat
  fallbackFlag : Option Bool

/-- Result of one handler invocation: a 200 success payload, an explicit
error response, or an exception escaping the handler (a throw inside the
outer `catch`). -/
inductive ApiResult where
  | ok (payload : ApiAppPayload)
  | err (status : Nat) (error : String) (details : Option String)
  | crash (msg : String)

/-- Models the body of the `try` block (lines 8-97): each `Except.error`
is a thrown exception caught by the outer `catch`.  Building the prompt
dereferences `idea.slice`, so a request without `idea` throws before the
model call; a parse failure of the cleaned response text substitutes the
deterministic fallback data. -/
def generateTry (body : ReqBody) (outcome : ModelOutcome) (rnd : String)
    (now duration : Nat) : Except String ApiAppPayload := do
  let idea ← match body.idea with
    | some s => Except.ok s
    | none => Except.error "Cannot read properties of undefined (reading \x27slice\x27)"
  let _prompt := appPrompt idea (jsArg body.theme) (jsArg body.layout)
  let content ← match outcome with
    | ModelOutcome.completion c => Except.ok c
    | ModelOutcome.rejected m => Except.error m
  let t ← match findTextBlock content with
    | some t => Except.ok t
    | none => Except.error "No response from Claude"
  let appData ← match jsonParse (cleanModelText t) with
    | some j => Except.ok j
    | none => generateFastFallback idea (jsArg body.theme) (jsArg body.layout)
  let files ← successProjectFiles appData idea (jsArg body.theme) (jsArg body.layout)
  Except.ok {
    appData := appData, files := files, timestamp := now, id := rnd,
    generationTime := some duration, fallbackFlag := none }

/-- Models the timeout branch of the `catch` block (lines 103-120); a
throw raised while building this response (for example the `RangeError`
of `generateFastApp` under an unknown layout) escapes the handler. -/
def timeoutFallbackResp (body : ReqBody) (rnd6 : String) (now : Nat) :
    Except String ApiAppPayload := do
  let idea ← match body.idea with
    | some s => Except.ok s
    | none => Except.error "Cannot read properties of undefined (reading \x27split\x27)"
  let fb ← generateFastFallback idea (jsArg body.theme) (jsArg body.layout)
  let app ← generateFastApp idea (jsArg body.theme) (jsArg body.layout)
  Except.ok {
    appData := fb,
    files := [
      ("package.json", Json.str "\x7b\"name\": \"fallback-app\", \"version\": \"1.0.0\"\x7d"),
      ("src/App.tsx", Json.str app),
      ("README.md", Json.str ("# Fallback App\n\n" ++ idea))],
    timestamp := now, id := "fallback-" ++ rnd6,
    generationTime := none, fallbackFlag := some true }

/-- Models the generation endpoint handler (lines 3-128) for a POST
request: the missing-credential check, the `try` body, and the `catch`
that recovers only the exact message "API timeout" with a 200 fallback
response and turns every other exception into a 500 "Generation failed"
response.  `rnd` and `rnd6` stand for the two `Math.random()` id tokens,
`now` and `duration` for the wall-clock values. -/
def generateHandler (apiKeyPresent : Bool) (body : ReqBody)
    (outcome : ModelOutcome) (rnd rnd6 : String) (now duration : Nat) :
    ApiResult :=
  if !apiKeyPresent then ApiResult.err 500 "Missing API key" none
  else
    match generateTry body outcome rnd now duration with
    | Except.ok payload => ApiResult.ok payload
    | Except.error emsg =>
      if emsg == "API timeout" then
        match timeoutFallbackResp body rnd6 now with
        | Except.ok payload => ApiResult.ok payload
        | Except.error m => ApiResult.crash m
      else ApiResult.err 500 "Generation failed" (some emsg)

/-- Whether the handler answered 200 with `success: true`. -/
def ApiResult.isSuccess : ApiResult → Bool
  | ApiResult.ok _ => true
  | _ => false

/-- The `fallback` field of the response payload, when present. -/
def ApiResult.fallbackFlagOf : ApiResult → Option Bool
  | ApiResult.ok p => p.fallbackFlag
  | _ => none

/-- The `id` field of a success payload. -/
def ApiResult.idOf : ApiResult → Option String
  | ApiResult.ok p => some p.id
  | _ => none

/-- The spread `appData` of a success payload. -/
def ApiResult.appDataOf : ApiResult → Option Json
  | ApiResult.ok p => some p.appData
  | _ => none

/-- The file paths of the bundle in a success payload. -/
def ApiResult.fileKeysOf : ApiResult → Option (List String)
  | ApiResult.ok p => some (p.files.map Prod.fst)
  | _ => none

/-! ### src/components/VibeAppMaker.tsx : the classifier -/

/-- Models `detectAppType(idea)` (lines 165-180): case-insensitive keyword
containment checks in source order, defaulting to "productivity". -/
def detectAppType (idea : String) : String :=
  let l := jsToLower idea
  if containsSub l "todo" || containsSub l "task" then "todo"
  else if containsSub l "weather" then "weather"
  else if containsSub l "habit" || containsSub l "track" then "habit-tracker"
  else if containsSub l "recipe" || containsSub l "food" || containsSub l "cooking" then "recipe"
  else if containsSub l "note" || containsSub l "journal" then "notes"
  else if containsSub l "timer" || containsSub l "pomodoro" then "timer"
  else if containsSub l "calculator" then "calculator"
  else if containsSub l "calendar" || containsSub l "event" then "calendar"
  else if containsSub l "budget" || containsSub l "expense" || containsSub l "money" then "budget"
  else if containsSub l "bird" || containsSub l "song" || containsSub l "audio" then "audio-tracker"
  else "productivity"

/-- The closed category set, in the priority order of the claim. -/
def appCategories : List String :=
  ["todo", "weather", "habit-tracker", "recipe", "notes", "timer",
   "calculator", "calendar", "budget", "audio-tracker", "productivity"]

/-- Modelled from the spec: the ordered keyword-set-to-category rule list
of the classifier ("categories are checked via substring containment
against a fixed ordered list of keyword-set to category rules"). -/
def classifyRules : List (List String × String) :=
  [(["todo", "task"], "todo"),
   (["weather"], "weather"),
   (["habit", "track"], "habit-tracker"),
   (["recipe", "food", "cooking"], "recipe"),
   (["note", "journal"], "notes"),
   (["timer", "pomodoro"], "timer"),
   (["calculator"], "calculator"),
   (["calendar", "event"], "calendar"),
   (["budget", "expense", "money"], "budget"),
   (["bird", "song", "audio"], "audio-tracker")]

/-- Modelled from the spec: first-matching-rule classification by
case-insensitive keyword containment, defaulting to "productivity". -/
def classifySpec (idea : String) : String :=
  match classifyRules.find? (fun r => r.1.any (fun kw => containsSub (jsToLower idea) kw)) with
  | some r => r.2
  | none => "productivity"

/-! ### src/lib/app-generator.ts : the bundle assembler -/

/-- The `code` record of the `AppData` interface (lines 6-10), with the
file-label keys 'App.tsx', 'components.tsx', 'styles.css' as fields. -/
structure AppCode where
  app : String
  componentsTsx : String
  stylesCss : String

/-- The `config` record of the `AppData` interface (lines 11-15). -/
structure AppConfig where
  theme : String
  layout : String
  features : List String

/-- The `AppData` interface (lines 1-16). -/
structure AppData where
  title : String
  description : String
  componentNames : List String
  pageNames : List String
  code : AppCode
  config : AppConfig

/-- Models `x || y` for a string `x`: the empty string is the only falsy
string. -/
def jsOrStr (x y : String) : String := if x.isEmpty then y else x

/-- The object stringified by `generatePackageJson` (lines 39-61). -/
def libPkgObj (title : String) : Json :=
  Json.obj [
    ("name", Json.str (slugify title)),
    ("version", Json.str "1.0.0"),
    ("type", Json.str "module"),
    ("scripts", Json.obj [
      ("dev", Json.str "bun run --hot src/index.tsx"),
      ("build", Json.str "bun build src/index.tsx --outdir build --minify"),
      ("preview", Json.str "bun run build && bun run build/index.js")]),
    ("dependencies", Json.obj [
      ("hono", Json.str "^3.12.0"),
      ("react", Json.str "^18.2.0"),
      ("react-dom", Json.str "^18.2.0"),
      ("lucide-react", Json.str "^0.263.1")]),
    ("devDependencies", Json.obj [
      ("@types/react", Json.str "^18.2.0"),
      ("@types/react-dom", Json.str "^18.2.0"),
      ("typescript", Json.str "^5.0.0")])]

/-- Models `generatePackageJson(title)` (lines 39-61). -/
def generatePackageJson (title : String) : String := stringify2 (libPkgObj title)

/-- Models `generateDevboxConfig()` (lines 63-75). -/
def generateDevboxConfig : String :=
  stringify2 (Json.obj [
    ("packages", Json.arr [Json.str "bun@1.0.0", Json.str "sqlite@3.42.0"]),
    ("shell", Json.obj [
      ("init_hook", Json.arr [Json.str "bun install"]),
      ("scripts", Json.obj [
        ("dev", Json.str "bun run dev"),
        ("build", Json.str "bun run build"),
        ("preview", Json.str "bun run preview")])])])

/-- Models `generateHonoServer()` (lines 77-113); the escaped backticks and
dollar signs of the source template are literal characters of the emitted
file. -/
def generateHonoServer : String :=
  "import \x7b Hono \x7d from \x27hono\x27;\nimport \x7b serveStatic \x7d from \x27hono/bun\x27;\nimport \x7b renderToString \x7d from \x27react-dom/server\x27;\nimport App from \x27./App\x27;\n\nconst app = new Hono();\n\napp.use(\x27/static/*\x27, serveStatic(\x7b root: \x27./\x27 \x7d));\n\napp.get(\x27/api/health\x27, (c) => c.json(\x7b status: \x27ok\x27, vibe: \x27maximum\x27 \x7d));\n\napp.get(\x27*\x27, (c) => \x7b\n  const html = renderToString(<App />);\n  \n  return c.html(`\n    <!DOCTYPE html>\n    <html lang=\"en\">\n      <head>\n        <meta charset=\"UTF-8\">\n        <meta name=\"viewport\" content=\"width=device-width, initial-scale=1.0\">\n        <title>Vibe App</title>\n        <script src=\"https://cdn.tailwindcss.com\"></script>\n        <link rel=\"stylesheet\" href=\"/static/styles/globals.css\">\n      </head>\n      <body>\n        <div id=\"root\">$\x7bhtml\x7d</div>\n      </body>\n    </html>\n  `);\n\x7d);\n\nexport default \x7b\n  port: 3000,\n  fetch: app.fetch,\n\x7d;"

/-- Models `generateReactApp(theme, layout)` (lines 115-153). -/
def generateReactApp (theme layout : String) : String :=
  "import React from \x27react\x27;\nimport \x7b VibeCard, VibeButton, VibeGrid \x7d from \x27./components\x27;\n\nexport default function App() \x7b\n  return (\n    <div className=\"min-h-screen bg-gradient-to-br from-purple-100 to-pink-100 p-6\">\n      <div className=\"max-w-4xl mx-auto\">\n        <header className=\"text-center mb-8\">\n          <h1 className=\"text-4xl font-bold text-purple-900 mb-4\">\n            Your "
  ++ theme
  ++ " App\n          </h1>\n          <p className=\"text-purple-700\">\n            Generated with "
  ++ layout
  ++ " layout and beautiful design\n          </p>\n        </header>\n        \n        <VibeGrid columns=\""
  ++ layout
  ++ "\" gap=\"md\">\n          <VibeCard>\n            <h3 className=\"font-semibold text-purple-900 mb-2\">Feature 1</h3>\n            <p className=\"text-purple-700 mb-4\">Your app feature description</p>\n            <VibeButton variant=\"primary\">Get Started</VibeButton>\n          </VibeCard>\n          <VibeCard>\n            <h3 className=\"font-semibold text-purple-900 mb-2\">Feature 2</h3>\n            <p className=\"text-purple-700 mb-4\">Another great feature</p>\n            <VibeButton variant=\"secondary\">Learn More</VibeButton>\n          </VibeCard>\n          <VibeCard>\n            <h3 className=\"font-semibold text-purple-900 mb-2\">Feature 3</h3>\n            <p className=\"text-purple-700 mb-4\">Amazing functionality</p>\n            <VibeButton variant=\"accent\">Try It</VibeButton>\n          </VibeCard>\n        </VibeGrid>\n      </div>\n    </div>\n  );\n\x7d"

/-- Models `generateVibeComponents()` (lines 155-208); escaped backticks
and dollar signs of the source template are literal in the emitted file. -/
def generateVibeComponents : String :=
  "import React from \x27react\x27;\n\nexport function VibeCard(\x7b children, className = \"\" \x7d) \x7b\n  return (\n    <div className=\x7b`bg-white/80 backdrop-blur-sm rounded-xl p-6 border border-purple-200/50 shadow-lg hover:shadow-xl transition-all duration-300 hover:scale-[1.02] $\x7bclassName\x7d`\x7d>\n      \x7bchildren\x7d\n    </div>\n  );\n\x7d\n\nexport function VibeButton(\x7b variant = \x27primary\x27, size = \x27md\x27, children, onClick, className = \"\" \x7d) \x7b\n  const variants = \x7b\n    primary: \x27bg-purple-600 text-white hover:bg-purple-700\x27,\n    secondary: \x27bg-white text-purple-900 border border-purple-200 hover:bg-purple-50\x27,\n    accent: \x27bg-gradient-to-r from-pink-500 to-purple-600 text-white hover:from-pink-600 hover:to-purple-700\x27\n  \x7d;\n  \n  const sizes = \x7b\n    sm: \x27px-3 py-1.5 text-sm\x27,\n    md: \x27px-4 py-2\x27,\n    lg: \x27px-6 py-3 text-lg\x27\n  \x7d;\n\n  return (\n    <button \n      onClick=\x7bonClick\x7d\n      className=\x7b`$\x7bvariants[variant]\x7d $\x7bsizes[size]\x7d rounded-lg font-medium transition-all duration-200 hover:scale-105 hover:shadow-lg active:scale-95 $\x7bclassName\x7d`\x7d\n    >\n      \x7bchildren\x7d\n    </button>\n  );\n\x7d\n\nexport function VibeGrid(\x7b columns = \x27triple\x27, gap = \x27md\x27, children \x7d) \x7b\n  const gridCols = \x7b\n    single: \x27grid-cols-1\x27,\n    dual: \x27grid-cols-1 md:grid-cols-2\x27,\n    triple: \x27grid-cols-1 md:grid-cols-3\x27,\n    quad: \x27grid-cols-1 md:grid-cols-2 lg:grid-cols-4\x27\n  \x7d;\n  \n  const gaps = \x7b\n    sm: \x27gap-3\x27,\n    md: \x27gap-6\x27,\n    lg: \x27gap-8\x27\n  \x7d;\n\n  return (\n    <div className=\x7b`grid $\x7bgridCols[columns]\x7d $\x7bgaps[gap]\x7d`\x7d>\n      \x7bchildren\x7d\n    </div>\n  );\n\x7d"

/-- Models `generateThemeSystem()` (lines 211-235). -/
def generateThemeSystem : String :=
  "export const VibeThemes = \x7b\n  minimal: \x7b\n    palette: \x27from-slate-50 to-gray-100\x27,\n    primary: \x27bg-black text-white hover:bg-gray-800\x27,\n    secondary: \x27bg-gray-100 text-gray-900 hover:bg-gray-200\x27,\n    accent: \x27bg-gray-900 text-white hover:bg-gray-700\x27,\n    card: \x27bg-white/80 backdrop-blur-sm border border-gray-200\x27\n  \x7d,\n  playful: \x7b\n    palette: \x27from-pink-100 via-purple-50 to-indigo-100\x27,\n    primary: \x27bg-gradient-to-r from-pink-500 to-purple-600 text-white\x27,\n    secondary: \x27bg-white/90 text-purple-900 hover:bg-white\x27,\n    accent: \x27bg-gradient-to-r from-indigo-500 to-purple-500 text-white\x27,\n    card: \x27bg-white/70 backdrop-blur-md border border-purple-200/50\x27\n  \x7d,\n  professional: \x7b\n    palette: \x27from-blue-50 to-indigo-100\x27,\n    primary: \x27bg-blue-600 text-white hover:bg-blue-700\x27,\n    secondary: \x27bg-white text-blue-900 hover:bg-blue-50\x27,\n    accent: \x27bg-indigo-600 text-white hover:bg-indigo-700\x27,\n    card: \x27bg-white/90 backdrop-blur-sm border border-blue-200\x27\n  \x7d\n\x7d;"

/-- Models `generateGlobalStyles()` (lines 237-251). -/
def generateGlobalStyles : String :=
  "@tailwind base;\n@tailwind components;\n@tailwind utilities;\n\nbody \x7b\n  font-family: -apple-system, BlinkMacSystemFont, \x27Segoe UI\x27, Roboto, sans-serif;\n\x7d\n\n.glass-effect \x7b\n  backdrop-filter: blur(16px);\n  background: rgba(255, 255, 255, 0.1);\n  border: 1px solid rgba(255, 255, 255, 0.2);\n\x7d"

/-- Models `generateCloudflareConfig(title)` (lines 253-260). -/
def generateCloudflareConfig (title : String) : String :=
  "name = \"" ++ slugify title
  ++ "\"\nmain = \"build/index.js\"\ncompatibility_date = \"2024-01-01\"\n\n[build]\ncommand = \"bun run build\""

/-- Models `title.toLowerCase().replace(/[^a-zA-Z0-9]/g, '')`: the bundle
identifier slug, which deletes non-alphanumerics instead of replacing
them. -/
def slugStrip (s : String) : String :=
  ⟨(s.data.map Char.toLower).filter jsAlnum⟩

/-- Models `generateTauriConfig(title)` (lines 262-286). -/
def generateTauriConfig (title : String) : String :=
  stringify2 (Json.obj [
    ("build", Json.obj [
      ("beforeDevCommand", Json.str "bun run dev"),
      ("beforeBuildCommand", Json.str "bun run build"),
      ("devPath", Json.str "http://localhost:3000"),
      ("distDir", Json.str "../build")]),
    ("package", Json.obj [
      ("productName", Json.str title),
      ("version", Json.str "1.0.0")]),
    ("tauri", Json.obj [
      ("bundle", Json.obj [
        ("identifier", Json.str ("com.vibestack." ++ slugStrip title)),
        ("targets", Json.str "all")]),
      ("windows", Json.arr [Json.obj [
        ("title", Json.str title),
        ("width", Json.num "1200"),
        ("height", Json.num "800")]])])])

/-- Models `generateReadme(title, description, theme)` (lines 289-328). -/
def generateReadme (title description theme : String) : String :=
  "# " ++ title ++ "\n\n" ++ description
  ++ "\n\n## Features\n\n- ⚡ Lightning fast with Bun\n- 🎨 Beautiful " ++ theme
  ++ " theme\n- 📱 Responsive design\n- 🚀 One-command deployment\n\n## Quick Start\n\n```bash\n# Install Devbox\ncurl -fsSL https://get.jetpack.io/devbox | bash\n\n# Start development\ndevbox run dev\n```\n\n## Deployment\n\n```bash\n# Build for production\ndevbox run build\n\n# Deploy to Cloudflare Workers\ndevbox run deploy:edge\n\n# Build desktop app\ndevbox run build:desktop\n```\n\n## Built with VibeStack\n\nThis app was generated using the VibeStack framework - the fastest way to build beautiful, deployable apps.\n"

/-- Models `generateGitignore()` (lines 330-339). -/
def generateGitignore : String :=
  "node_modules/\n.next/\n.env.local\n.env\nbuild/\ndist/\n*.log\n.DS_Store"

/-- Models `generateTSConfig()` (lines 341-362). -/
def generateTSConfig : String :=
  stringify2 (Json.obj [
    ("compilerOptions", Json.obj [
      ("target", Json.str "es2017"),
      ("lib", Json.arr [Json.str "dom", Json.str "dom.iterable", Json.str "es6"]),
      ("allowJs", Json.bool true),
      ("skipLibCheck", Json.bool true),
      ("strict", Json.bool true),
      ("forceConsistentCasingInFileNames", Json.bool true),
      ("noEmit", Json.bool true),
      ("esModuleInterop", Json.bool true),
      ("module", Json.str "esnext"),
      ("moduleResolution", Json.str "node"),
      ("resolveJsonModule", Json.bool true),
      ("isolatedModules", Json.bool true),
      ("jsx", Json.str "preserve"),
      ("incremental", Json.bool true)]),
    ("include", Json.arr [Json.str "**/*.ts", Json.str "**/*.tsx"]),
    ("exclude", Json.arr [Json.str "node_modules"])])

/-- Models `generateTailwindConfig()` (lines 364-374). -/
def generateTailwindConfig : String :=
  "module.exports = \x7b\n  content: [\n    \x27./src/**/*.\x7bjs,ts,jsx,tsx\x7d\x27,\n  ],\n  theme: \x7b\n    extend: \x7b\x7d,\n  \x7d,\n  plugins: [],\n\x7d"

/-- Models `generateProjectFiles(appData)` (lines 18-37): the complete
project bundle of the library assembler. -/
def generateProjectFiles (d : AppData) : List (String × String) :=
  [("package.json", generatePackageJson d.title),
   ("devbox.json", generateDevboxConfig),
   ("src/index.tsx", generateHonoServer),
   ("src/App.tsx", jsOrStr d.code.app (generateReactApp d.config.theme d.config.layout)),
   ("src/components/index.ts", jsOrStr d.code.componentsTsx generateVibeComponents),
   ("src/themes/themes.ts", generateThemeSystem),
   ("static/styles/globals.css", jsOrStr d.code.stylesCss generateGlobalStyles),
   ("deploy/cloudflare.toml", generateCloudflareConfig d.title),
   ("deploy/tauri.conf.json", generateTauriConfig d.title),
   ("README.md", generateReadme d.title d.description d.config.theme),
   (".gitignore", generateGitignore),
   ("tsconfig.json", generateTSConfig),
   ("tailwind.config.js", generateTailwindConfig)]

/-- The source file path named by a manifest startup command: its last
whitespace-separated token (the characters after the last space). -/
def devScriptTarget (cmd : String) : String :=
  ⟨(cmd.data.reverse.takeWhile (fun c => c != ' ')).reverse⟩

/-! ### src/pages/api/save-app.ts : the thumbnail generator -/

/-- The `colors` table of `generateThumbnail` (lines 60-66). -/
def thumbColors : String → Option String
  | "minimal" => some "#f8f9fa"
  | "playful" => some "#ff6b9d"
  | "professional" => some "#3b82f6"
  | "artistic" => some "#f59e0b"
  | "techy" => some "#10b981"
  | _ => none

/-- The SVG template of `generateThumbnail` (lines 68-75), with the fill
value and title interpolated. -/
def svgThumb (fill title : String) : String :=
  "\n    <svg width=\"200\" height=\"120\" xmlns=\"http://www.w3.org/2000/svg\">\n      <rect width=\"200\" height=\"120\" fill=\""
  ++ fill
  ++ "\"/>\n      <text x=\"100\" y=\"60\" text-anchor=\"middle\" fill=\"white\" font-size=\"14\" font-family=\"Arial\">\n        "
  ++ title ++ "\n      </text>\n    </svg>\n  "

/-- Models `generateThumbnail(appData)` (lines 57-76), reading
`appData.config.theme` and `appData.title`: a data URL wrapping the
percent-encoded SVG.  A theme outside the colour table interpolates
`undefined` into the fill attribute; nothing in the function can throw. -/
def generateThumbnail (theme title : String) : String :=
  "data:image/svg+xml," ++ encodeURIComponent (svgThumb (jsShowO (thumbColors theme)) title)

/-! ### src/lib/storage.ts : gallery storage helpers -/

/-- Models `deleteApp(appId)` (lines 42-50): the outcome of the external
`del` call is a parameter; any failure is caught and reported as
`false`. -/
def deleteApp (delOutcome : Except String Unit) : Bool :=
  match delOutcome with
  | Except.ok _ => true
  | Except.error _ => false

/-- Reads a fixed-width decimal field of an ISO timestamp. -/
def decField (s : String) (start len : Nat) : Option Nat :=
  let cs := (s.data.drop start).take len
  if cs.length == len && cs.all (fun c => 48 ≤ c.toNat && c.toNat ≤ 57) then
    some (cs.foldl (fun acc c => acc * 10 + (c.toNat - 48)) 0)
  else none

/-- Days from 1970-01-01 of a civil date, the standard civil-calendar
computation. -/
def daysFromCivil (y m d : Int) : Int :=
  let y2 := if m ≤ 2 then y - 1 else y
  let era := (if 0 ≤ y2 then y2 else y2 - 399) / 400
  let yoe := y2 - era * 400
  let mp := (m + 9) % 12
  let doy := (153 * mp + 2) / 5 + d - 1
  let doe := yoe * 365 + yoe / 4 - yoe / 100 + doy
  era * 146097 + doe - 719468

/-- Models `new Date(s).getTime()` for the `toISOString` timestamps the
store writes ("YYYY-MM-DDTHH:MM:SS.mmmZ"); other shapes, which produce
`NaN` in JavaScript and are never written by this code base, map to 0. -/
def isoToMs (s : String) : Int :=
  match decField s 0 4, decField s 5 2, decField s 8 2, decField s 11 2,
        decField s 14 2, decField s 17 2, decField s 20 3 with
  | some y, some mo, some d, some h, some mi, some sec, some ms =>
    ((daysFromCivil y mo d) * 86400 + h * 3600 + mi * 60 + sec) * 1000 + ms
  | _, _, _, _, _, _, _ => 0

/-- The sort key of the gallery listing, `new Date(x.createdAt).getTime()`. -/
def createdAtMs (j : Json) : Int :=
  match jsGet j "createdAt" with
  | some (Json.str s) => isoToMs s
  | _ => 0

/-- Models `.sort((a, b) => new Date(b.createdAt).getTime() - new
Date(a.createdAt).getTime())`: a stable sort, newest first. -/
def sortByCreatedAtDesc (apps : List Json) : List Json :=
  apps.mergeSort (fun a b => decide (createdAtMs b ≤ createdAtMs a))

/-- Models `Promise.all(blobs.map(blob => fetch(blob.url).json()))`: all
fetch outcomes, failing if any one fails. -/
def fetchAll (urls : List String) (fetchJson : String → Except String Json) :
    Except String (List Json) :=
  urls.mapM fetchJson

/-- Models `getPublicApps()` (lines 21-40): the outcome of the external
`list` call and of each per-blob fetch are parameters; any failure
anywhere is caught and reported as the empty list, otherwise the fetched
entries are sorted newest-first. -/
def getPublicApps (listOutcome : Except String (List String))
    (fetchJson : String → Except String Json) : List Json :=
  match listOutcome with
  | Except.error _ => []
  | Except.ok urls =>
    match fetchAll urls fetchJson with
    | Except.ok apps => sortByCreatedAtDesc apps
    | Except.error _ => []

/-! ### Spec-modelled response parser (for comparison with the code) -/

/-- Modelled from the spec: the response parser "strips formatting
wrappers, parses JSON" and, "if a parse attempt on the full text fails,
retries parsing on the substring between the first brace and the last
matching brace (best-effort recovery of JSON embedded in surrounding
prose)". -/
def specParse (t : String) : Option Json :=
  let c := cleanModelText t
  match jsonParse c with
  | some j => some j
  | none =>
    match c.data.findIdx? (fun ch => ch == '\x7b'),
          c.data.reverse.findIdx? (fun ch => ch == '\x7d') with
    | some i, some jr =>
      let j := c.data.length - 1 - jr
      if i ≤ j then jsonParse ⟨(c.data.drop i).take (j + 1 - i)⟩ else none
    | _, _ => none

/-- A well-formed model response text used as a concrete completion in
the theorems below. -/
def goodModelText : String :=
  "\x7b\"title\": \"T\", \"description\": \"D\", \"code\": \x7b\"App.tsx\": \"x\"\x7d\x7d"

/-- A model response wrapping a valid JSON object in surrounding prose,
the recovery case highlighted by the spec. -/
def proseModelText : String :=
  "Sure! Here is your app: \x7b\"title\": \"Todo\"\x7d enjoy!"

/-- The value a success payload stores under a bundle path. -/
def ApiResult.fileValueOf (r : ApiResult) (k : String) : Option Json :=
  match r with
  | ApiResult.ok p => p.files.lookup k
  | _ => none

/-! ### Helper lemmas -/

/-- Conversion of `Char.ofNat` back to `Nat` on the shifted uppercase
range. -/
theorem charOfNat_toNat (n : Nat) (h1 : 65 ≤ n) (h2 : n ≤ 90) :
    (Char.ofNat (n + 32)).toNat = n + 32 := by
  have hv : (n + 32).isValidChar := Or.inl (by omega)
  simp [Char.ofNat, hv, Char.ofNatAux, Char.toNat, UInt32.toNat]

/-- ASCII lowercasing is idempotent. -/
theorem toLower_idem (c : Char) : c.toLower.toLower = c.toLower := by
  by_cases h : c.toNat ≥ 65 ∧ c.toNat ≤ 90
  · have e1 : c.toLower = Char.ofNat (c.toNat + 32) := by
      simp only [Char.toLower]
      rw [if_pos h]
    rw [e1]
    have ht := charOfNat_toNat c.toNat h.1 h.2
    simp only [Char.toLower]
    rw [ht, if_neg (by omega)]
  · have e1 : c.toLower = c := by
      simp only [Char.toLower]
      rw [if_neg h]
    rw [e1, e1]

/-- The slug character map is idempotent. -/
theorem slugChar_idem (c : Char) : slugChar (slugChar c) = slugChar c := by
  unfold slugChar
  by_cases h : jsAlnum c.toLower = true
  · simp only [h, if_pos, toLower_idem, if_true]
  · simp only [Bool.not_eq_true] at h
    simp [h]

/-- Prefix tests survive appending on the right. -/
theorem hasPrefixCL_append (p a b : List Char) (h : hasPrefixCL p a = true) :
    hasPrefixCL p (a ++ b) = true := by
  induction p generalizing a with
  | nil => simp [hasPrefixCL]
  | cons x xs ih =>
    cases a with
    | nil => simp [hasPrefixCL] at h
    | cons y ys =>
      simp only [hasPrefixCL, Bool.and_eq_true] at h
      simp only [List.cons_append, hasPrefixCL, Bool.and_eq_true]
      exact ⟨h.1, ih ys h.2⟩

/-- Substring occurrences survive appending on the right. -/
theorem occursL_append_left (kw a b : List Char) (h : occursL kw a = true) :
    occursL kw (a ++ b) = true := by
  induction a with
  | nil =>
    simp only [occursL] at h
    cases kw with
    | nil => cases b <;> simp [occursL, hasPrefixCL]
    | cons x xs => simp [hasPrefixCL] at h
  | cons c cs ih =>
    simp only [occursL, Bool.or_eq_true] at h
    simp only [List.cons_append, occursL, Bool.or_eq_true]
    rcases h with h | h
    · exact Or.inl (hasPrefixCL_append _ _ _ h)
    · exact Or.inr (ih h)

/-- String-level corollary: `containsSub` survives appending. -/
theorem containsSub_append_left (a b kw : String) (h : containsSub a kw = true) :
    containsSub (a ++ b) kw = true := by
  unfold containsSub at h ⊢
  rw [String.data_append]
  exact occursL_append_left _ _ _ h

/-- The thumbnail SVG for a theme outside the colour table carries the
literal fill attribute text. -/
theorem svg_fill_undefined (title : String) :
    containsSub (svgThumb "undefined" title) "fill=\"undefined\"" = true := by
  unfold svgThumb
  apply containsSub_append_left
  apply containsSub_append_left
  decide

/-- Length positivity of a left append factor is preserved. -/
theorem strLen_append_pos_left (a b : String) (h : 0 < a.length) :
    0 < (a ++ b).length := by
  rw [String.length_append]; omega

set_option maxHeartbeats 1000000 in
/-- The classifier agrees with the ordered first-match rule walk of the
spec model. -/
theorem detect_eq_spec (idea : String) : detectAppType idea = classifySpec idea := by
  unfold detectAppType classifySpec classifyRules
  simp only [List.find?, List.any, Bool.or_false]
  by_cases h1 : (containsSub (jsToLower idea) "todo" = true ∨ containsSub (jsToLower idea) "task" = true)
  case pos => rcases h1 with h | h <;> simp [h]
  simp only [not_or, Bool.not_eq_true] at h1
  by_cases h2 : containsSub (jsToLower idea) "weather" = true
  case pos => simp [h1, h2]
  simp only [Bool.not_eq_true] at h2
  by_cases h3 : (containsSub (jsToLower idea) "habit" = true ∨ containsSub (jsToLower idea) "track" = true)
  case pos => rcases h3 with h | h <;> simp [h1, h2, h]
  simp only [not_or, Bool.not_eq_true] at h3
  by_cases h4 : (containsSub (jsToLower idea) "recipe" = true ∨ containsSub (jsToLower idea) "food" = true ∨ containsSub (jsToLower idea) "cooking" = true)
  case pos => rcases h4 with h | h | h <;> simp [h1, h2, h3, h]
  simp only [not_or, Bool.not_eq_true] at h4
  by_cases h5 : (containsSub (jsToLower idea) "note" = true ∨ containsSub (jsToLower idea) "journal" = true)
  case pos => rcases h5 with h | h <;> simp [h1, h2, h3, h4, h]
  simp only [not_or, Bool.not_eq_true] at h5
  by_cases h6 : (containsSub (jsToLower idea) "timer" = true ∨ containsSub (jsToLower idea) "pomodoro" = true)
  case pos => rcases h6 with h | h <;> simp [h1, h2, h3, h4, h5, h]
  simp only [not_or, Bool.not_eq_true] at h6
  by_cases h7 : containsSub (jsToLower idea) "calculator" = true
  case pos => simp [h1, h2, h3, h4, h5, h6, h7]
  simp only [Bool.not_eq_true] at h7
  by_cases h8 : (containsSub (jsToLower idea) "calendar" = true ∨ containsSub (jsToLower idea) "event" = true)
  case pos => rcases h8 with h | h <;> simp [h1, h2, h3, h4, h5, h6, h7, h]
  simp only [not_or, Bool.not_eq_true] at h8
  by_cases h9 : (containsSub (jsToLower idea) "budget" = true ∨ containsSub (jsToLower idea) "expense" = true ∨ containsSub (jsToLower idea) "money" = true)
  case pos => rcases h9 with h | h | h <;> simp [h1, h2, h3, h4, h5, h6, h7, h8, h]
  simp only [not_or, Bool.not_eq_true] at h9
  by_cases h10 : (containsSub (jsToLower idea) "bird" = true ∨ containsSub (jsToLower idea) "song" = true ∨ containsSub (jsToLower idea) "audio" = true)
  case pos => rcases h10 with h | h | h <;> simp [h1, h2, h3, h4, h5, h6, h7, h8, h9, h]
  simp only [not_or, Bool.not_eq_true] at h10
  simp [h1, h2, h3, h4, h5, h6, h7, h8, h9, h10]

set_option maxHeartbeats 1000000 in
/-- The classifier only ever returns one of the eleven categories. -/
theorem detect_mem (idea : String) : detectAppType idea ∈ appCategories := by
  simp only [detectAppType]
  split_ifs <;> simp [appCategories]

/-! ### Claim theorems -/

set_option maxRecDepth 10000 in
/-- Claim C1 counterexample: with the credential configured and a
well-formed request, an upstream model-call rejection whose message is not
"API timeout", and likewise a response with no text content block, are
surfaced to the user as a 500 "Generation failed" error response rather
than being recovered by the fallback. -/
theorem upstream_error_surfaced_to_user :
    generateHandler true ⟨some "a todo app", some "minimal", some "dual"⟩
        (ModelOutcome.rejected "Connection error.") "r" "s" 0 0
      = ApiResult.err 500 "Generation failed" (some "Connection error.") ∧
    generateHandler true ⟨some "a todo app", some "minimal", some "dual"⟩
        (ModelOutcome.completion [ContentBlock.other]) "r" "s" 0 0
      = ApiResult.err 500 "Generation failed" (some "No response from Claude") :=
  ⟨rfl, rfl⟩

/-- Claim C1, amended: only a model-call failure with the exact message
"API timeout" and a malformed (unparseable) response text are recovered by
substituting the deterministic fallback with a 200 success response; any
other rejection and an empty response (no text block) surface a 500
"Generation failed" error to the user. -/
theorem generation_recovery_exactly_timeout_and_parse
    (body : ReqBody) (idea t emsg : String) (content : List ContentBlock)
    (rnd rnd6 : String) (now duration : Nat) (n : Nat)
    (hidea : body.idea = some idea)
    (hcols : colsMap (jsArg body.layout) = some n)
    (ht : jsonParse (cleanModelText t) = none)
    (hemsg : emsg ≠ "API timeout")
    (hcontent : findTextBlock content = none) :
    (generateHandler true body (ModelOutcome.rejected "API timeout") rnd rnd6 now duration).isSuccess = true ∧
    (generateHandler true body (ModelOutcome.completion [ContentBlock.text t]) rnd rnd6 now duration).isSuccess = true ∧
    generateHandler true body (ModelOutcome.rejected emsg) rnd rnd6 now duration
      = ApiResult.err 500 "Generation failed" (some emsg) ∧
    generateHandler true body (ModelOutcome.completion content) rnd rnd6 now duration
      = ApiResult.err 500 "Generation failed" (some "No response from Claude") := by
  obtain ⟨bi, bt, bl⟩ := body
  simp only at hidea hcols
  subst hidea
  refine ⟨?_, ?_, ?_, ?_⟩
  · simp [generateHandler, generateTry, timeoutFallbackResp, generateFastFallback,
      generateFastApp, hcols, Except.bind, Bind.bind, ApiResult.isSuccess]
  · simp only [generateHandler, generateTry, generateFastFallback, successProjectFiles,
      appTsxValue, pkgNameOfTitle, jsGet, findTextBlock, hcols, ht,
      Except.bind, Bind.bind]
    simp [generateFastApp, hcols, Except.bind, Bind.bind, ApiResult.isSuccess, Except.map]
  · simp [generateHandler, generateTry, Except.bind, Bind.bind, hemsg]
  · simp [generateHandler, generateTry, Except.bind, Bind.bind, hcontent]

set_option maxRecDepth 10000 in
/-- Claim C1 witness: concrete instances of the amended recovery policy. -/
theorem generation_recovery_exactly_timeout_and_parse_witness :
    (⟨some "a todo app", some "minimal", some "dual"⟩ : ReqBody).idea = some "a todo app" ∧
    colsMap (jsArg (⟨some "a todo app", some "minimal", some "dual"⟩ : ReqBody).layout) = some 2 ∧
    jsonParse (cleanModelText proseModelText) = none ∧
    "Connection error." ≠ "API timeout" ∧
    findTextBlock [ContentBlock.other] = none ∧
    ((generateHandler true ⟨some "a todo app", some "minimal", some "dual"⟩
        (ModelOutcome.rejected "API timeout") "r" "s" 0 0).isSuccess = true ∧
      (generateHandler true ⟨some "a todo app", some "minimal", some "dual"⟩
        (ModelOutcome.completion [ContentBlock.text proseModelText]) "r" "s" 0 0).isSuccess = true ∧
      generateHandler true ⟨some "a todo app", some "minimal", some "dual"⟩
          (ModelOutcome.rejected "Connection error.") "r" "s" 0 0
        = ApiResult.err 500 "Generation failed" (some "Connection error.") ∧
      generateHandler true ⟨some "a todo app", some "minimal", some "dual"⟩
          (ModelOutcome.completion [ContentBlock.other]) "r" "s" 0 0
        = ApiResult.err 500 "Generation failed" (some "No response from Claude")) :=
  ⟨rfl, rfl, rfl, by decide, rfl,
    generation_recovery_exactly_timeout_and_parse _ "a todo app" proseModelText
      "Connection error." [ContentBlock.other] "r" "s" 0 0 2 rfl rfl rfl (by decide) rfl⟩

/-- Claim C2 counterexample: the fast fallback synthesizer is not total on
arbitrary layout strings — for a layout outside the documented enum,
`Array(parseInt(cols[layout]))` throws a `RangeError`, so the synthesizer
fails instead of returning a description. -/
theorem fast_fallback_throws_on_unknown_layout :
    generateFastFallback "a cool app" "minimal" "wide"
      = Except.error "Invalid array length" ∧
    generateFastApp "a cool app" "minimal" "wide"
      = Except.error "Invalid array length" :=
  ⟨rfl, rfl⟩

/-- Claim C2, amended: for every idea and theme string and every layout in
the documented enum (single, dual, triple, quad), the fast fallback
synthesizer succeeds and returns a description whose App source entry is a
non-empty string and whose feature list is the non-empty literal list; for
a layout outside the enum it throws a RangeError instead. -/
theorem fast_fallback_total_on_documented_layouts
    (idea theme layout : String) (n : Nat) (h : colsMap layout = some n) :
    ∃ app : String,
      generateFastApp idea theme layout = Except.ok app ∧ 0 < app.length ∧
      ∃ j : Json, generateFastFallback idea theme layout = Except.ok j ∧
        jsGetPath j ["code", "App.tsx"] = some (Json.str app) ∧
        jsGetPath j ["config", "features"]
          = some (Json.arr [Json.str "responsive", Json.str "modern"]) := by
  unfold generateFastFallback generateFastApp
  rw [h]
  simp only [Except.bind, Bind.bind]
  refine ⟨_, rfl, ?_, _, rfl, rfl, rfl⟩
  repeat' apply strLen_append_pos_left
  decide

/-- Claim C2 witness: the amended totality at a concrete enum layout. -/
theorem fast_fallback_total_on_documented_layouts_witness :
    colsMap "dual" = some 2 ∧
    (∃ app : String,
      generateFastApp "a notes app" "playful" "dual" = Except.ok app ∧ 0 < app.length ∧
      ∃ j : Json, generateFastFallback "a notes app" "playful" "dual" = Except.ok j ∧
        jsGetPath j ["code", "App.tsx"] = some (Json.str app) ∧
        jsGetPath j ["config", "features"]
          = some (Json.arr [Json.str "responsive", Json.str "modern"])) :=
  ⟨rfl, fast_fallback_total_on_documented_layouts "a notes app" "playful" "dual" 2 rfl⟩

/-- Claim C3: the classifier is total on arbitrary text, always returns a
category from the fixed closed set, agrees with first-match
keyword-containment classification in the fixed priority order, and maps
the empty input to the default category. -/
theorem classifier_total_ordered_defaulted (idea : String) :
    detectAppType idea = classifySpec idea ∧
    detectAppType idea ∈ appCategories ∧
    detectAppType "" = "productivity" :=
  ⟨detect_eq_spec idea, detect_mem idea, rfl⟩

set_option maxRecDepth 10000 in
/-- Claim C4 counterexample: the generation endpoint emits a bundle whose
manifest declares the startup command `bun run --hot src/index.tsx`, yet
the bundle's only keys are package.json, src/App.tsx and README.md — the
declared entry point src/index.tsx is not among them. -/
theorem endpoint_bundle_entry_point_missing :
    (generateHandler true ⟨some "x", some "minimal", some "dual"⟩
        (ModelOutcome.completion [ContentBlock.text goodModelText]) "r" "s" 0 0).fileKeysOf
      = some ["package.json", "src/App.tsx", "README.md"] ∧
    (generateHandler true ⟨some "x", some "minimal", some "dual"⟩
        (ModelOutcome.completion [ContentBlock.text goodModelText]) "r" "s" 0 0).fileValueOf "package.json"
      = some (Json.str (stringify2 (handlerPkgObj "t"))) ∧
    jsGetPath (handlerPkgObj "t") ["scripts", "dev"]
      = some (Json.str "bun run --hot src/index.tsx") ∧
    devScriptTarget "bun run --hot src/index.tsx" = "src/index.tsx" ∧
    ("src/index.tsx" ∈ ["package.json", "src/App.tsx", "README.md"] → False) :=
  ⟨rfl, rfl, rfl, rfl, by decide⟩

/-- Claim C4, amended: the library assembler `generateProjectFiles` is
self-consistent — its manifest declares the startup command
`bun run --hot src/index.tsx`, whose target src/index.tsx is always
present among the emitted bundle paths — but the generation endpoint's
minimal bundle is not. -/
theorem library_bundle_self_consistent (d : AppData) :
    jsGetPath (libPkgObj d.title) ["scripts", "dev"]
      = some (Json.str "bun run --hot src/index.tsx") ∧
    generatePackageJson d.title = stringify2 (libPkgObj d.title) ∧
    (generateProjectFiles d).lookup "package.json" = some (generatePackageJson d.title) ∧
    devScriptTarget "bun run --hot src/index.tsx" = "src/index.tsx" ∧
    devScriptTarget "bun run --hot src/index.tsx" ∈ (generateProjectFiles d).map Prod.fst := by
  refine ⟨rfl, rfl, rfl, rfl, ?_⟩
  have hd : devScriptTarget "bun run --hot src/index.tsx" = "src/index.tsx" := rfl
  rw [hd]
  simp [generateProjectFiles]

set_option maxRecDepth 10000 in
/-- Claim C5 counterexample: a valid JSON object embedded in surrounding
prose fails the endpoint's single parse attempt and is routed to the
deterministic fallback, whereas the two-stage parser described by the spec
recovers it. -/
theorem prose_embedded_json_routed_to_fallback :
    jsonParse (cleanModelText proseModelText) = none ∧
    specParse proseModelText = some (Json.obj [("title", Json.str "Todo")]) ∧
    (generateHandler true ⟨some "groceries", some "minimal", some "dual"⟩
        (ModelOutcome.completion [ContentBlock.text proseModelText]) "r" "s" 0 0).appDataOf
      = (generateFastFallback "groceries" "minimal" "dual").toOption ∧
    (generateHandler true ⟨some "groceries", some "minimal", some "dual"⟩
        (ModelOutcome.completion [ContentBlock.text proseModelText]) "r" "s" 0 0).isSuccess = true :=
  ⟨rfl, rfl, rfl, rfl⟩

set_option maxRecDepth 10000 in
/-- Claim C5, amended: the response parser strips code-fence markers
globally, trims, and makes exactly one JSON parse attempt; when that
attempt fails the response is treated as malformed and the deterministic
fallback data is substituted (with a 200 response and no fallback flag) —
there is no retry on the brace-delimited substring. -/
theorem single_parse_attempt_no_bracket_retry
    (body : ReqBody) (idea t rnd rnd6 : String) (now duration : Nat) (n : Nat)
    (hidea : body.idea = some idea)
    (hcols : colsMap (jsArg body.layout) = some n)
    (ht : jsonParse (cleanModelText t) = none) :
    (generateHandler true body (ModelOutcome.completion [ContentBlock.text t]) rnd rnd6 now duration).isSuccess = true ∧
    (generateHandler true body (ModelOutcome.completion [ContentBlock.text t]) rnd rnd6 now duration).appDataOf
      = (generateFastFallback idea (jsArg body.theme) (jsArg body.layout)).toOption ∧
    (generateHandler true body (ModelOutcome.completion [ContentBlock.text t]) rnd rnd6 now duration).fallbackFlagOf = none := by
  obtain ⟨bi, bt, bl⟩ := body
  simp only at hidea hcols
  subst hidea
  refine ⟨?_, ?_, ?_⟩
  · simp only [generateHandler, generateTry, generateFastFallback, successProjectFiles,
      appTsxValue, pkgNameOfTitle, jsGet, findTextBlock, hcols, ht,
      Except.bind, Bind.bind]
    simp [generateFastApp, hcols, Except.bind, Bind.bind, ApiResult.isSuccess, Except.map]
  · simp only [generateHandler, generateTry, generateFastFallback, successProjectFiles,
      appTsxValue, pkgNameOfTitle, jsGet, findTextBlock, hcols, ht,
      Except.bind, Bind.bind]
    simp [generateFastApp, hcols, Except.bind, Bind.bind, ApiResult.appDataOf,
      Except.map, Except.toOption]
  · simp only [generateHandler, generateTry, generateFastFallback, successProjectFiles,
      appTsxValue, pkgNameOfTitle, jsGet, findTextBlock, hcols, ht,
      Except.bind, Bind.bind]
    simp [generateFastApp, hcols, Except.bind, Bind.bind, ApiResult.fallbackFlagOf,
      Except.map]

set_option maxRecDepth 10000 in
/-- Claim C5 witness: the amended single-attempt behaviour at the concrete
prose-wrapped response. -/
theorem single_parse_attempt_no_bracket_retry_witness :
    (⟨some "groceries", some "minimal", some "dual"⟩ : ReqBody).idea = some "groceries" ∧
    colsMap (jsArg (⟨some "groceries", some "minimal", some "dual"⟩ : ReqBody).layout) = some 2 ∧
    jsonParse (cleanModelText proseModelText) = none ∧
    ((generateHandler true ⟨some "groceries", some "minimal", some "dual"⟩
        (ModelOutcome.completion [ContentBlock.text proseModelText]) "r" "s" 0 0).isSuccess = true ∧
      (generateHandler true ⟨some "groceries", some "minimal", some "dual"⟩
        (ModelOutcome.completion [ContentBlock.text proseModelText]) "r" "s" 0 0).appDataOf
        = (generateFastFallback "groceries" (jsArg (some "minimal")) (jsArg (some "dual"))).toOption ∧
      (generateHandler true ⟨some "groceries", some "minimal", some "dual"⟩
        (ModelOutcome.completion [ContentBlock.text proseModelText]) "r" "s" 0 0).fallbackFlagOf = none) :=
  ⟨rfl, rfl, rfl,
    single_parse_attempt_no_bracket_retry _ "groceries" proseModelText "r" "s" 0 0 2 rfl rfl rfl⟩

set_option maxRecDepth 10000 in
/-- Claim C6 counterexample: a request missing theme and layout is not
rejected — generation proceeds and answers 200 success — and a request
missing idea produces a 500 (not a 4xx) thrown from prompt construction. -/
theorem missing_fields_do_not_fail_fast :
    (generateHandler true ⟨some "a todo app", none, none⟩
        (ModelOutcome.completion [ContentBlock.text goodModelText]) "r" "s" 0 0).isSuccess = true ∧
    generateHandler true ⟨none, some "minimal", some "dual"⟩
        (ModelOutcome.rejected "whatever") "r" "s" 0 0
      = ApiResult.err 500 "Generation failed"
          (some "Cannot read properties of undefined (reading \x27slice\x27)") :=
  ⟨rfl, rfl⟩

set_option maxRecDepth 10000 in
/-- Claim C6, amended: the endpoint validates nothing — a request missing
idea throws a TypeError during prompt construction and is surfaced as a
500 "Generation failed" whatever the model outcome, while a request
missing theme and layout proceeds to generation (the fields interpolate as
the string "undefined") and can answer 200 success. -/
theorem no_inbound_request_validation (theme layout : Option String) (idea : String)
    (outcome : ModelOutcome) (rnd rnd6 : String) (now duration : Nat) :
    generateHandler true ⟨none, theme, layout⟩ outcome rnd rnd6 now duration
      = ApiResult.err 500 "Generation failed"
          (some "Cannot read properties of undefined (reading \x27slice\x27)") ∧
    (generateHandler true ⟨some idea, none, none⟩
        (ModelOutcome.completion [ContentBlock.text goodModelText]) rnd rnd6
        now duration).isSuccess = true :=
  ⟨rfl, rfl⟩

/-- Claim C7 counterexample: a title with a two-character non-alphanumeric
run maps to a manifest name with two separators, not one as the spec's
run-collapsing rule would give. -/
theorem slug_does_not_collapse_runs :
    jsGet (libPkgObj "My  App") "name" = some (Json.str "my--app") ∧
    slugify "My  App" = "my--app" ∧
    specSlug "My  App" = "my-app" ∧
    slugify "My  App" ≠ specSlug "My  App" :=
  ⟨rfl, rfl, rfl, by decide⟩

/-- Claim C7, amended: the manifest project name is the title lowercased
with each single non-alphanumeric character replaced by a separator (runs
are not collapsed: the slug always has exactly the title's length), and
the slug map is idempotent. -/
theorem manifest_name_charwise_slug (title : String) :
    jsGet (libPkgObj title) "name" = some (Json.str (slugify title)) ∧
    (slugify title).length = title.length ∧
    slugify (slugify title) = slugify title := by
  refine ⟨rfl, ?_, ?_⟩
  · show (title.data.map slugChar).length = title.data.length
    exact List.length_map _ _
  · show (⟨((⟨title.data.map slugChar⟩ : String).data.map slugChar : List Char)⟩ : String)
      = (⟨title.data.map slugChar⟩ : String)
    have he : ((⟨title.data.map slugChar⟩ : String).data.map slugChar : List Char)
        = title.data.map slugChar := by
      show (title.data.map slugChar).map slugChar = title.data.map slugChar
      rw [List.map_map]
      exact List.map_congr_left (fun c _ => slugChar_idem c)
    rw [he]

set_option maxRecDepth 10000 in
/-- Claim C8: the timeout recovery path always marks its response with
fallback true and an id prefixed "fallback-", while the parse-failure
recovery path sets no fallback flag and uses the plain random id, so
fallback use is observable for timeouts and silent for parse failures. -/
theorem fallback_marking_inconsistent
    (body : ReqBody) (idea t rnd rnd6 : String) (now duration : Nat) (n : Nat)
    (hidea : body.idea = some idea)
    (hcols : colsMap (jsArg body.layout) = some n)
    (ht : jsonParse (cleanModelText t) = none) :
    (generateHandler true body (ModelOutcome.rejected "API timeout") rnd rnd6 now duration).fallbackFlagOf = some true ∧
    (generateHandler true body (ModelOutcome.rejected "API timeout") rnd rnd6 now duration).idOf
      = some ("fallback-" ++ rnd6) ∧
    (generateHandler true body (ModelOutcome.completion [ContentBlock.text t]) rnd rnd6 now duration).fallbackFlagOf = none ∧
    (generateHandler true body (ModelOutcome.completion [ContentBlock.text t]) rnd rnd6 now duration).idOf
      = some rnd := by
  obtain ⟨bi, bt, bl⟩ := body
  simp only at hidea hcols
  subst hidea
  refine ⟨?_, ?_, ?_, ?_⟩
  · simp [generateHandler, generateTry, timeoutFallbackResp, generateFastFallback,
      generateFastApp, hcols, Except.bind, Bind.bind, ApiResult.fallbackFlagOf]
  · simp [generateHandler, generateTry, timeoutFallbackResp, generateFastFallback,
      generateFastApp, hcols, Except.bind, Bind.bind, ApiResult.idOf]
  · simp only [generateHandler, generateTry, generateFastFallback, successProjectFiles,
      appTsxValue, pkgNameOfTitle, jsGet, findTextBlock, hcols, ht,
      Except.bind, Bind.bind]
    simp [generateFastApp, hcols, Except.bind, Bind.bind, ApiResult.fallbackFlagOf, Except.map]
  · simp only [generateHandler, generateTry, generateFastFallback, successProjectFiles,
      appTsxValue, pkgNameOfTitle, jsGet, findTextBlock, hcols, ht,
      Except.bind, Bind.bind]
    simp [generateFastApp, hcols, Except.bind, Bind.bind, ApiResult.idOf, Except.map]

set_option maxRecDepth 10000 in
/-- Claim C8 witness: the marking difference at a concrete request. -/
theorem fallback_marking_inconsistent_witness :
    (⟨some "a habit app", some "minimal", some "dual"⟩ : ReqBody).idea = some "a habit app" ∧
    colsMap (jsArg (⟨some "a habit app", some "minimal", some "dual"⟩ : ReqBody).layout) = some 2 ∧
    jsonParse (cleanModelText proseModelText) = none ∧
    ((generateHandler true ⟨some "a habit app", some "minimal", some "dual"⟩
        (ModelOutcome.rejected "API timeout") "r" "s" 0 0).fallbackFlagOf = some true ∧
      (generateHandler true ⟨some "a habit app", some "minimal", some "dual"⟩
        (ModelOutcome.rejected "API timeout") "r" "s" 0 0).idOf = some ("fallback-" ++ "s") ∧
      (generateHandler true ⟨some "a habit app", some "minimal", some "dual"⟩
        (ModelOutcome.completion [ContentBlock.text proseModelText]) "r" "s" 0 0).fallbackFlagOf = none ∧
      (generateHandler true ⟨some "a habit app", some "minimal", some "dual"⟩
        (ModelOutcome.completion [ContentBlock.text proseModelText]) "r" "s" 0 0).idOf = some "r") :=
  ⟨rfl, rfl, rfl,
    fallback_marking_inconsistent _ "a habit app" proseModelText "r" "s" 0 0 2 rfl rfl rfl⟩

/-- Claim C9: for a theme outside the documented set the thumbnail
generator does not fail — it produces the data-URL SVG whose background
rectangle's fill attribute is the literal text "undefined". -/
theorem thumbnail_unknown_theme_undefined_fill (theme title : String)
    (h : thumbColors theme = none) :
    generateThumbnail theme title
      = "data:image/svg+xml," ++ encodeURIComponent (svgThumb "undefined" title) ∧
    containsSub (svgThumb "undefined" title) "fill=\"undefined\"" = true := by
  constructor
  · unfold generateThumbnail
    rw [h]
    rfl
  · exact svg_fill_undefined title

/-- Claim C9 witness: the undefined fill at a concrete unknown theme. -/
theorem thumbnail_unknown_theme_undefined_fill_witness :
    thumbColors "neon" = none ∧
    (generateThumbnail "neon" "My App"
        = "data:image/svg+xml," ++ encodeURIComponent (svgThumb "undefined" "My App") ∧
      containsSub (svgThumb "undefined" "My App") "fill=\"undefined\"" = true) :=
  ⟨rfl, thumbnail_unknown_theme_undefined_fill "neon" "My App" rfl⟩

/-- Claim C10: `deleteApp` reports true on a successful store delete and
false on any failure instead of throwing, and `getPublicApps` returns the
empty list when the store listing or any per-entry fetch fails instead of
propagating the error. -/
theorem storage_failures_recovered (emsg lmsg e : String) (urls : List String)
    (f : String → Except String Json)
    (hf : fetchAll urls f = Except.error e) :
    deleteApp (Except.error emsg) = false ∧
    deleteApp (Except.ok ()) = true ∧
    getPublicApps (Except.error lmsg) f = [] ∧
    getPublicApps (Except.ok urls) f = [] := by
  refine ⟨rfl, rfl, rfl, ?_⟩
  show (match fetchAll urls f with
        | Except.ok apps => sortByCreatedAtDesc apps
        | Except.error _ => []) = []
  rw [hf]

/-- Claim C10 witness: the recovery behaviour at concrete outcomes. -/
theorem storage_failures_recovered_witness :
    fetchAll ["u1"] (fun _ => Except.error "network down") = Except.error "network down" ∧
    (deleteApp (Except.error "boom") = false ∧
      deleteApp (Except.ok ()) = true ∧
      getPublicApps (Except.error "list failed") (fun _ => Except.error "network down") = [] ∧
      getPublicApps (Except.ok ["u1"]) (fun _ => Except.error "network down") = []) :=
  ⟨rfl, storage_failures_recovered "boom" "list failed" "network down" ["u1"]
    (fun _ => Except.error "network down") rfl⟩
